import Mathlib

/-!
Verification development for the prediction-markets arbitrage monitor.

The repository connects to two prediction-market venues (Polymarket and
Kalshi), maintains an order-book replica per venue from snapshot/delta
streaming messages, and evaluates cross-venue arbitrage on complementary
binary outcomes.

Embedding conventions:
* Python `Decimal` arithmetic is modelled exactly over `ℚ`; `Decimal`
  quantization with rounding mode `ROUND_UP` (away from zero) is modelled
  by `roundUpCent`.
* Kalshi prices and quantities are integers (cents / contract counts) and
  are modelled as `ℤ`.
* Polymarket JSON messages carry prices and sizes as strings.  Prices are
  always re-parsed through `Decimal(...)` before any comparison, so they
  are modelled by their `Decimal` value in `ℚ` (string representations
  assumed canonical); sizes are only stored, emitted, or compared with
  `==` against the int `0`, so they are kept as raw strings and the
  Python cross-type comparison `str == int` (always `False`) is modelled
  by `pyEqStrInt`.
* Python exceptions (`KeyError` from a missing dict key, `IndexError`
  from `[-1]` on an empty list) are modelled with `Except PyErr`.
* Python dicts keyed by ticker / asset id are modelled as association
  lists with insertion-order-preserving overwrite (`dictSet`).
-/

namespace PolyKalshiArb

/-- Python exceptions that the embedded code can raise. -/
inductive PyErr where
  | keyError : PyErr
  | indexError : PyErr
deriving DecidableEq, Repr

/-- `Decimal.quantize(Decimal("0.01"), rounding="ROUND_UP")`: round away from
zero to the next multiple of one cent (for non-negative inputs this is the
ceiling to the nearest cent). -/
def roundUpCent (x : ℚ) : ℚ :=
  if 0 ≤ x then (⌈x * 100⌉ : ℚ) / 100 else (⌊x * 100⌋ : ℚ) / 100

/-- `calculate_kalshi_fees` (src/poly_kalshi_arb.py, lines 322-325):
`fee = (fee_rate * shares * contract_price * (1-contract_price)).quantize(Decimal('0.01'), rounding="ROUND_UP")`
with the default `fee_rate=0.07` (the only rate used in the repository). -/
def calculate_kalshi_fees (contract_price shares : ℚ) : ℚ :=
  let fee_rate : ℚ := 7 / 100
  roundUpCent (fee_rate * shares * contract_price * (1 - contract_price))

/-- Return value of `check_arbitrage`. -/
structure ArbResult where
  is_arbitrage : Bool
  pnl_if_win : ℚ
  pnl_if_lose : ℚ
deriving DecidableEq, Repr

/-- `check_arbitrage` (src/poly_kalshi_arb.py, lines 265-280). -/
def check_arbitrage (market1_price market2_inverse_price shares : ℚ) : ArbResult :=
  let market2_fee := calculate_kalshi_fees market2_inverse_price shares
  let profit_if_win_market1 := (1 - market1_price) * shares
  let profit_if_win_market2 := (1 - market2_inverse_price) * shares - market2_fee
  let cost_market1 := market1_price * shares
  let cost_market2 := market2_inverse_price * shares + market2_fee
  let pnl_if_win_market1 := profit_if_win_market1 - cost_market2
  let pnl_if_lose_market1 := profit_if_win_market2 - cost_market1
  { is_arbitrage := decide (pnl_if_lose_market1 > 0) && decide (pnl_if_win_market1 > 0)
    pnl_if_win := pnl_if_win_market1
    pnl_if_lose := pnl_if_lose_market1 }

/-- Return value of `check_markets_arbitrage`.  The human-readable
`strategy` string is determined by `market1_action`/`market2_action`
(0 picks market 1 / venue-2 ticker 1, 1 picks the complementary leg),
so it is not modelled separately. -/
structure MarketsArbResult where
  is_arbitrage : Bool
  market1_action : Option Nat
  market2_action : Option Nat
  profit_per_share : Option ℚ
  market1_pnl : ℚ
  market2_pnl : ℚ
deriving DecidableEq, Repr

/-- `check_markets_arbitrage` (src/poly_kalshi_arb.py, lines 283-315). -/
def check_markets_arbitrage (m1_yes m1_no m2_yes m2_no shares : ℚ) : MarketsArbResult :=
  let pm1 := check_arbitrage m1_yes m2_no shares
  let pm2 := check_arbitrage m1_no m2_yes shares
  let profit1 := pm1.pnl_if_win
  let profit2 := pm2.pnl_if_win
  let is_arb := decide (profit1 > 0) || decide (profit2 > 0)
  if is_arb then
    if profit1 > profit2 then
      { is_arbitrage := true
        market1_action := some 0
        market2_action := some 1
        profit_per_share := some profit1
        market1_pnl := profit1
        market2_pnl := profit2 }
    else
      { is_arbitrage := true
        market1_action := some 1
        market2_action := some 0
        profit_per_share := some profit2
        market1_pnl := profit1
        market2_pnl := profit2 }
  else
    { is_arbitrage := false
      market1_action := none
      market2_action := none
      profit_per_share := none
      market1_pnl := profit1
      market2_pnl := profit2 }

/-! ### Python dict helpers

Python dicts keyed by strings, as association lists: overwriting an existing
key keeps its position, a new key is appended at the end. -/

/-- `d[k]` lookup returning `none` when the key is absent. -/
def dictGet {α : Type} (d : List (String × α)) (k : String) : Option α :=
  match d with
  | [] => none
  | (k₀, v₀) :: rest => if k₀ = k then some v₀ else dictGet rest k

/-- `d[k] = v` assignment on a Python dict. -/
def dictSet {α : Type} (d : List (String × α)) (k : String) (v : α) : List (String × α) :=
  match d with
  | [] => [(k, v)]
  | (k₀, v₀) :: rest => if k₀ = k then (k, v) :: rest else (k₀, v₀) :: dictSet rest k v

/-! ### Kalshi order-book replica (src/kalshi_api.py) -/

namespace Kalshi

/-- One side of a Kalshi book: the `"yes"` or `"no"` ledger. -/
inductive Side where
  | yes : Side
  | no : Side
deriving DecidableEq, Repr

/-- A stored Kalshi book is the snapshot message dict itself
(`self.orderbook[market_ticker] = message`): the ticker plus the two side
ledgers, each a list of `(price, quantity)` pairs (prices in integer cents). -/
structure Book where
  market_ticker : String
  yes : List (Int × Int)
  no : List (Int × Int)
deriving DecidableEq, Repr

/-- `self.orderbook`: dict from market ticker to its book. -/
def Orderbook : Type := List (String × Book)

/-- Read the ledger for one side of a book. -/
def Book.side (b : Book) : Side → List (Int × Int)
  | Side.yes => b.yes
  | Side.no => b.no

/-- Replace the ledger for one side of a book. -/
def Book.setSide (b : Book) : Side → List (Int × Int) → Book
  | Side.yes, arr => { b with yes := arr }
  | Side.no, arr => { b with no := arr }

/-- An `orderbook_delta` message: ticker, side, price (cents), signed delta. -/
structure DeltaMsg where
  market_ticker : String
  side : Side
  price : Int
  delta : Int
deriving DecidableEq, Repr

/-- Loop body of `find_index` (src/kalshi_api.py, lines 205-216): binary search
over the ledger with inclusive bounds `l`, `r`, returning the final `l` when
the window is exhausted (the Python `while l <= r` loop, which terminates
because the window shrinks at every step). -/
def findIndexGo (arr : List (Int × Int)) (price : Int) (l r : Int) : Int :=
  if h : l ≤ r then
    let mid := (l + r) / 2
    let entry := arr.getD mid.toNat (0, 0)
    if entry.1 = price then mid
    else if entry.1 < price then findIndexGo arr price (mid + 1) r
    else findIndexGo arr price l (mid - 1)
  else l
termination_by (r + 1 - l).toNat
decreasing_by
  all_goals omega

/-- `find_index` (src/kalshi_api.py, lines 205-216): binary search for `price`
in one side ledger starting from `l, r = 0, len(arr)-1`; returns the matching
index, or the insertion point `l` when the price is absent. -/
def find_index (arr : List (Int × Int)) (price : Int) : Int :=
  findIndexGo arr price 0 (arr.length - 1)

/-- `update_orderbook_from_delta` (src/kalshi_api.py, lines 182-202).
`self.orderbook[market_ticker]` raises `KeyError` when no snapshot for the
ticker has arrived yet; otherwise the delta is applied to the targeted side
ledger exactly as in the source (append when the search lands past the end,
add-and-remove-if-nonpositive at an equal price, insert only when
`delta > 0` otherwise). -/
def update_orderbook_from_delta (ob : Orderbook) (message : DeltaMsg) :
    Except PyErr Orderbook :=
  match dictGet ob message.market_ticker with
  | none => Except.error PyErr.keyError
  | some book =>
    let arr := book.side message.side
    let idx := find_index arr message.price
    if idx = (arr.length : Int) then
      Except.ok (dictSet ob message.market_ticker
        (book.setSide message.side (arr ++ [(message.price, message.delta)])))
    else
      let orderbook_level := arr.getD idx.toNat (0, 0)
      if orderbook_level.1 = message.price then
        let new_quantity := orderbook_level.2 + message.delta
        if new_quantity ≤ 0 then
          Except.ok (dictSet ob message.market_ticker
            (book.setSide message.side (arr.eraseIdx idx.toNat)))
        else
          Except.ok (dictSet ob message.market_ticker
            (book.setSide message.side (arr.set idx.toNat (message.price, new_quantity))))
      else
        if message.delta > 0 then
          Except.ok (dictSet ob message.market_ticker
            (book.setSide message.side (arr.insertIdx idx.toNat (message.price, message.delta))))
        else
          Except.ok ob

/-- `update_orderbook_from_snapshot` (src/kalshi_api.py, lines 217-220):
`self.orderbook[market_ticker] = message`. -/
def update_orderbook_from_snapshot (ob : Orderbook) (message : Book) : Orderbook :=
  dictSet ob message.market_ticker message

/-- A decoded inbound Kalshi websocket message (`on_message`,
src/kalshi_api.py, lines 160-180): an `orderbook_snapshot` or an
`orderbook_delta` envelope. -/
inductive Msg where
  | snapshot : Book → Msg
  | delta : DeltaMsg → Msg
deriving DecidableEq, Repr

/-- `on_message` restricted to its order-book effect: dispatches the envelope
to the snapshot / delta updater.  A `KeyError` escaping
`update_orderbook_from_delta` propagates out of `on_message` (the best-offer
callback is a read-only emission and is not modelled). -/
def on_message (ob : Orderbook) : Msg → Except PyErr Orderbook
  | Msg.snapshot m => Except.ok (update_orderbook_from_snapshot ob m)
  | Msg.delta m => update_orderbook_from_delta ob m

/-- `handler` (src/kalshi_api.py, lines 139-147): the `async for` message loop
runs `on_message` on each inbound message; any exception escaping
`on_message` breaks out of the loop and is caught by the surrounding
`except Exception` clause, which merely logs it — the loop is not resumed.
Returns the final orderbook together with the suffix of messages left
unprocessed because the loop terminated. -/
def handlerLoop (ob : Orderbook) : List Msg → Orderbook × List Msg
  | [] => (ob, [])
  | m :: rest =>
    match on_message ob m with
    | Except.ok ob₂ => handlerLoop ob₂ rest
    | Except.error _ => (ob, rest)

end Kalshi

/-! ### Polymarket order-book replica (src/polymarket_api.py) -/

namespace Polymarket

/-- Python `==` between a JSON string (the `size` field of a price-change
message) and the int literal `0` (src/polymarket_api.py, line 158): a
cross-type comparison in Python, always `False`. -/
def pyEqStrInt (_s : String) (_n : Int) : Bool :=
  false

/-- One stored Polymarket price level, a dict with a `price` and a `size`
field.  The price is modelled by its `Decimal` value (every comparison in
the source re-parses it through `Decimal(...)`); the size is kept as the
raw JSON string, which the source never parses in this data path. -/
structure Level where
  price : ℚ
  size : String
deriving DecidableEq, Repr

/-- One asset's book dict: the fields of `self.orderbook[asset_id]` touched
by the embedded code paths. -/
structure Book where
  bids : List Level
  asks : List Level
  timestamp : String
  spread : ℚ
  mid : ℚ
  outcome : String
deriving DecidableEq, Repr

/-- `self.orderbook`: dict from asset id to its book. -/
def Orderbook : Type := List (String × Book)

/-- A `"book"` (full snapshot) event: asset id, both sides, timestamp. -/
structure BookMsg where
  asset_id : String
  bids : List Level
  asks : List Level
  timestamp : String
deriving DecidableEq, Repr

/-- Loop body of Polymarket `find_index` (src/polymarket_api.py, lines
295-307), the same binary search as the Kalshi one but comparing
`Decimal(arr[mid]["price"])` with `Decimal(price)`. -/
def findIndexGo (arr : List Level) (price : ℚ) (l r : Int) : Int :=
  if h : l ≤ r then
    let mid := (l + r) / 2
    let entry := arr.getD mid.toNat { price := 0, size := "" }
    if entry.price = price then mid
    else if entry.price < price then findIndexGo arr price (mid + 1) r
    else findIndexGo arr price l (mid - 1)
  else l
termination_by (r + 1 - l).toNat
decreasing_by
  all_goals omega

/-- `find_index` (src/polymarket_api.py, lines 295-307). -/
def find_index (arr : List Level) (price : ℚ) : Int :=
  findIndexGo arr price 0 (arr.length - 1)

/-- Read the ledger for one trade side (`"bids"` or `"asks"`). -/
def Book.side (b : Book) (trade_side : String) : List Level :=
  if trade_side = "bids" then b.bids else b.asks

/-- Replace the ledger for one trade side. -/
def Book.setSide (b : Book) (trade_side : String) (arr : List Level) : Book :=
  if trade_side = "bids" then { b with bids := arr } else { b with asks := arr }

/-- `update_orderbook_levels` (src/polymarket_api.py, lines 140-161): apply
one `(price, side, size)` change from a `price_change` event.  Note the
source removes a level only when `size == 0`, a Python str-vs-int
comparison (`pyEqStrInt`), and otherwise stores the incoming size verbatim;
a search landing past the end appends unconditionally. -/
def update_orderbook_levels (ob : Orderbook) (asset_id : String) (price : ℚ)
    (side : String) (size : String) : Except PyErr Orderbook :=
  let trade_side := if side = "BUY" then "bids" else "asks"
  match dictGet ob asset_id with
  | none => Except.error PyErr.keyError
  | some book =>
    let arr := book.side trade_side
    let index := find_index arr price
    if index = (arr.length : Int) then
      Except.ok (dictSet ob asset_id
        (book.setSide trade_side (arr ++ [{ price := price, size := size }])))
    else
      if (arr.getD index.toNat { price := 0, size := "" }).price ≠ price then
        Except.ok (dictSet ob asset_id
          (book.setSide trade_side (arr.insertIdx index.toNat { price := price, size := size })))
      else
        if pyEqStrInt size 0 then
          Except.ok (dictSet ob asset_id
            (book.setSide trade_side (arr.eraseIdx index.toNat)))
        else
          Except.ok (dictSet ob asset_id
            (book.setSide trade_side
              (arr.set index.toNat { price := price, size := size })))

/-- `update_orderbook` (src/polymarket_api.py, lines 108-122): install a full
`"book"` snapshot for one asset.  `self.orderbook[asset_id]` must already
exist (created by `get_markets`), else `KeyError`; `message["asks"][-1]` and
`message["bids"][-1]` raise `IndexError` on an empty side. -/
def update_orderbook (ob : Orderbook) (message : BookMsg) : Except PyErr Orderbook :=
  match dictGet ob message.asset_id with
  | none => Except.error PyErr.keyError
  | some book =>
    match message.asks.getLast?, message.bids.getLast? with
    | some bestAsk, some bestBid =>
      Except.ok (dictSet ob message.asset_id
        { book with
          bids := message.bids
          asks := message.asks
          timestamp := message.timestamp
          spread := bestAsk.price - bestBid.price
          mid := (bestAsk.price + bestBid.price) / 2 })
    | _, _ => Except.error PyErr.indexError

end Polymarket

/-! ### Consumer loop / opportunity tracker (src/poly_kalshi_arb.py, message_consumer) -/

/-- The best-ask data the consumer extracts for one leg: the `(price, size)`
tuple of the venue's best ask (modelled by the `Decimal` values of the raw
fields) plus, for Polymarket legs, the outcome's `token_id` (absent token
ids abort the trade path). -/
structure OfferData where
  price : ℚ
  size : ℚ
  token_id : Option String
deriving DecidableEq, Repr

/-- The mutable state of `message_consumer` relevant to trading and
accounting: `prev_price_levels` (the four raw best-ask prices of the last
accepted evaluation, `[]` before any trade), the cumulative
`total_profit` / `total_cost` counters, and the `arbitrage_regime` flag.
The wall-clock regime timing (`arbitrage_start`, `arbitrage_times`) is
real-time bookkeeping and is not modelled. -/
structure ConsumerState where
  prev_price_levels : List ℚ
  total_profit : ℚ
  total_cost : ℚ
  arbitrage_regime : Bool
deriving DecidableEq, Repr

/-- One iteration of the `message_consumer` loop body after the four best
asks `p1, p2, k1, k2` have been extracted (src/poly_kalshi_arb.py, lines
139-262), with order placement commented out in the source so that the
`try` block always succeeds.  Kalshi prices arrive in cents and are divided
by 100 before `check_markets_arbitrage`; `shares=Decimal("1.0")`.  Returns
the new state together with whether a trade was accepted (orders submitted
and counters accumulated) this iteration. -/
def message_consumer_step (st : ConsumerState) (p1 p2 k1 k2 : OfferData) :
    ConsumerState × Bool :=
  let result := check_markets_arbitrage p1.price p2.price (k1.price / 100) (k2.price / 100) 1
  if result.is_arbitrage then
    let st₁ := { st with arbitrage_regime := true }
    let current_price_levels := [p1.price, p2.price, k1.price, k2.price]
    if st.prev_price_levels ≠ [] ∧ current_price_levels = st.prev_price_levels then
      (st₁, false)
    else
      let pm_order_details := if result.market1_action = some 0 then p1 else p2
      let kalshi_order_details := if result.market2_action = some 0 then k1 else k2
      match pm_order_details.token_id with
      | none => (st₁, false)
      | some _ =>
        let max_size_without_slippage := min pm_order_details.size kalshi_order_details.size
        if max_size_without_slippage ≤ 0 then (st₁, false)
        else
          let trade_size := max_size_without_slippage
          let cost_pm := pm_order_details.price * trade_size
          let cost_kalshi := kalshi_order_details.price / 100 * trade_size
          let total_potential_cost_for_arb := cost_pm + cost_kalshi
          let potential_profit_for_arb := result.profit_per_share.getD 0 * trade_size
          ({ st₁ with
              total_cost := st.total_cost + total_potential_cost_for_arb
              total_profit := st.total_profit + potential_profit_for_arb
              prev_price_levels := current_price_levels }, true)
  else
    ({ st with arbitrage_regime := false }, false)

/-! ## Shared helper lemmas -/

/-- The two PnL fields of `check_arbitrage` coincide: both expand to
`shares - market1_price * shares - market2_inverse_price * shares - fee`. -/
theorem check_arbitrage_pnl_win_eq_lose (p1 p2 s : ℚ) :
    (check_arbitrage p1 p2 s).pnl_if_win = (check_arbitrage p1 p2 s).pnl_if_lose := by
  simp only [check_arbitrage]
  ring

/-- The Kalshi fee is non-negative on the price interval `[0, 1]`. -/
theorem calculate_kalshi_fees_nonneg {p s : ℚ} (hp0 : 0 ≤ p) (hp1 : p ≤ 1) (hs : 0 ≤ s) :
    0 ≤ calculate_kalshi_fees p s := by
  have hprod : 0 ≤ 7 / 100 * s * p * (1 - p) := by
    have h1 : (0:ℚ) ≤ 1 - p := by linarith
    positivity
  simp only [calculate_kalshi_fees, roundUpCent, if_pos hprod]
  have : (0:ℤ) ≤ ⌈(7 / 100 * s * p * (1 - p)) * 100⌉ := by
    apply Int.ceil_nonneg
    positivity
  positivity

/-- Reading a key just written with `dictSet` returns the written value. -/
theorem dictGet_dictSet_self {α : Type} (d : List (String × α)) (k : String) (v : α) :
    dictGet (dictSet d k v) k = some v := by
  induction d with
  | nil => simp [dictGet, dictSet]
  | cons hd tl ih =>
    obtain ⟨k₀, v₀⟩ := hd
    by_cases hk : k₀ = k
    · simp [dictGet, dictSet, hk]
    · simp [dictGet, dictSet, hk, ih]

/-- Writing the same key/value twice is the same as writing it once. -/
theorem dictSet_dictSet_self {α : Type} (d : List (String × α)) (k : String) (v : α) :
    dictSet (dictSet d k v) k v = dictSet d k v := by
  induction d with
  | nil => simp [dictSet]
  | cons hd tl ih =>
    obtain ⟨k₀, v₀⟩ := hd
    by_cases hk : k₀ = k <;> simp [dictSet, hk, ih]

/-- Evaluation of the Kalshi binary search on a one-level ledger at a price
above the level: the insertion point is past the end of the list. -/
theorem kalshi_find_index_singleton_above :
    Kalshi.find_index [(10, 5)] 20 = 1 := by
  unfold Kalshi.find_index Kalshi.findIndexGo
  norm_num
  unfold Kalshi.findIndexGo
  norm_num

/-! ## Claim theorems -/

/-- C1: whenever `check_markets_arbitrage` reports an opportunity
(`is_arbitrage = true`), the selected strategy (`market1_action = some 0`
selects yes-on-market-1 / no-on-market-2, i.e. `check_arbitrage m1_yes m2_no`;
`market1_action = some 1` selects the complementary pairing) has strictly
positive PnL both when venue 1 wins (`pnl_if_win`) and when venue 1 loses
(`pnl_if_lose`): the reported opportunity is riskless. -/
theorem check_markets_arbitrage_riskless (m1_yes m1_no m2_yes m2_no shares : ℚ)
    (h : (check_markets_arbitrage m1_yes m1_no m2_yes m2_no shares).is_arbitrage = true) :
    ((check_markets_arbitrage m1_yes m1_no m2_yes m2_no shares).market1_action = some 0 ∨
      (check_markets_arbitrage m1_yes m1_no m2_yes m2_no shares).market1_action = some 1) ∧
    ((check_markets_arbitrage m1_yes m1_no m2_yes m2_no shares).market1_action = some 0 →
      0 < (check_arbitrage m1_yes m2_no shares).pnl_if_win ∧
      0 < (check_arbitrage m1_yes m2_no shares).pnl_if_lose) ∧
    ((check_markets_arbitrage m1_yes m1_no m2_yes m2_no shares).market1_action = some 1 →
      0 < (check_arbitrage m1_no m2_yes shares).pnl_if_win ∧
      0 < (check_arbitrage m1_no m2_yes shares).pnl_if_lose) := by
  have hid1 := check_arbitrage_pnl_win_eq_lose m1_yes m2_no shares
  have hid2 := check_arbitrage_pnl_win_eq_lose m1_no m2_yes shares
  simp only [check_markets_arbitrage] at h ⊢
  split_ifs at h ⊢ with harb hgt
  · simp only [Bool.or_eq_true, decide_eq_true_eq] at harb
    have hp1 : 0 < (check_arbitrage m1_yes m2_no shares).pnl_if_win := by
      rcases harb with h1 | h2
      · exact h1
      · linarith
    exact ⟨Or.inl rfl, fun _ => ⟨hp1, hid1 ▸ hp1⟩, fun hc => by simp at hc⟩
  · simp only [Bool.or_eq_true, decide_eq_true_eq] at harb
    have hp2 : 0 < (check_arbitrage m1_no m2_yes shares).pnl_if_win := by
      rcases harb with h1 | h2
      · push_neg at hgt
        linarith
      · exact h2
    exact ⟨Or.inr rfl, fun hc => by simp at hc, fun _ => ⟨hp2, hid2 ▸ hp2⟩⟩

/-- Witness for C1 at the concrete input `m1_yes=0.4, m1_no=0.9, m2_yes=0.6,
m2_no=0.5, shares=1`: an opportunity is reported (buy yes on market 1 at 0.4
and no on market 2 at 0.5, fee 0.02, PnL 0.08 on either resolution). -/
theorem check_markets_arbitrage_riskless_witness :
    (check_markets_arbitrage (4/10) (9/10) (6/10) (5/10) 1).is_arbitrage = true ∧
    (((check_markets_arbitrage (4/10) (9/10) (6/10) (5/10) 1).market1_action = some 0 ∨
      (check_markets_arbitrage (4/10) (9/10) (6/10) (5/10) 1).market1_action = some 1) ∧
    ((check_markets_arbitrage (4/10) (9/10) (6/10) (5/10) 1).market1_action = some 0 →
      0 < (check_arbitrage (4/10) (5/10) 1).pnl_if_win ∧
      0 < (check_arbitrage (4/10) (5/10) 1).pnl_if_lose) ∧
    ((check_markets_arbitrage (4/10) (9/10) (6/10) (5/10) 1).market1_action = some 1 →
      0 < (check_arbitrage (9/10) (6/10) 1).pnl_if_win ∧
      0 < (check_arbitrage (9/10) (6/10) 1).pnl_if_lose)) := by
  have harb : (check_markets_arbitrage (4/10) (9/10) (6/10) (5/10) 1).is_arbitrage = true := by
    have hc1 : (⌈(7:ℚ)/4⌉ : ℤ) = 2 := by
      rw [Int.ceil_eq_iff]
      constructor <;> norm_num
    have hc2 : (⌈(42:ℚ)/25⌉ : ℤ) = 2 := by
      rw [Int.ceil_eq_iff]
      constructor <;> norm_num
    norm_num [check_markets_arbitrage, check_arbitrage, calculate_kalshi_fees, roundUpCent,
      hc1, hc2]
  exact ⟨harb, check_markets_arbitrage_riskless (4/10) (9/10) (6/10) (5/10) 1 harb⟩

/-- C2 counterexample: at the spec's own example prices `m1_yes=0.22,
m1_no=0.81, m2_yes=0.19, m2_no=0.86, shares=100`, `check_markets_arbitrage`
reports NO opportunity, contrary to the claim: both candidate pairings cost
at least one dollar per share before fees (0.22+0.86 = 1.08 and
0.81+0.19 = 1.00). -/
theorem spec_example_reports_no_opportunity :
    (check_markets_arbitrage (22/100) (81/100) (19/100) (86/100) 100).is_arbitrage = false := by
  have hc1 : (⌈(2107:ℚ)/25⌉ : ℤ) = 85 := by
    rw [Int.ceil_eq_iff]
    constructor <;> norm_num
  have hc2 : (⌈(10773:ℚ)/100⌉ : ℤ) = 108 := by
    rw [Int.ceil_eq_iff]
    constructor <;> norm_num
  norm_num [check_markets_arbitrage, check_arbitrage, calculate_kalshi_fees, roundUpCent,
    hc1, hc2]

/-- C2 amended: at `m1_yes=0.22, m1_no=0.81, m2_yes=0.19, m2_no=0.86,
shares=100`, `check_markets_arbitrage` reports no opportunity
(`is_arbitrage = false`, no strategy selected) with strictly negative PnL
for both candidate strategies: -8.85 for yes-on-1/no-on-2 (fee 0.85) and
-1.08 for no-on-1/yes-on-2 (fee 1.08). -/
theorem spec_example_no_opportunity_amended :
    (check_markets_arbitrage (22/100) (81/100) (19/100) (86/100) 100).is_arbitrage = false ∧
    (check_markets_arbitrage (22/100) (81/100) (19/100) (86/100) 100).market1_action = none ∧
    (check_markets_arbitrage (22/100) (81/100) (19/100) (86/100) 100).market1_pnl = -885/100 ∧
    (check_markets_arbitrage (22/100) (81/100) (19/100) (86/100) 100).market2_pnl = -108/100 := by
  have hc1 : (⌈(2107:ℚ)/25⌉ : ℤ) = 85 := by
    rw [Int.ceil_eq_iff]
    constructor <;> norm_num
  have hc2 : (⌈(10773:ℚ)/100⌉ : ℤ) = 108 := by
    rw [Int.ceil_eq_iff]
    constructor <;> norm_num
  refine ⟨?_, ?_, ?_, ?_⟩ <;>
    norm_num [check_markets_arbitrage, check_arbitrage, calculate_kalshi_fees, roundUpCent,
      hc1, hc2]

/-- C3: for prices in `[0, 1]` and positive shares, whenever
`market1_price + market2_inverse_price ≥ 1`, `check_arbitrage` reports no
opportunity: the gross PnL `shares * (1 - p1 - p2)` is non-positive and the
fee only lowers it further. -/
theorem check_arbitrage_no_opportunity (market1_price market2_inverse_price shares : ℚ)
    (h10 : 0 ≤ market1_price) (h11 : market1_price ≤ 1)
    (h20 : 0 ≤ market2_inverse_price) (h21 : market2_inverse_price ≤ 1)
    (hs : 0 < shares)
    (hsum : 1 ≤ market1_price + market2_inverse_price) :
    (check_arbitrage market1_price market2_inverse_price shares).is_arbitrage = false := by
  have hfee := calculate_kalshi_fees_nonneg h20 h21 hs.le
  have hwin : ¬ (0 < (1 - market1_price) * shares -
      (market2_inverse_price * shares + calculate_kalshi_fees market2_inverse_price shares)) := by
    nlinarith
  simp only [check_arbitrage, Bool.and_eq_false_iff, decide_eq_false_iff_not]
  right
  exact fun h => hwin (by linarith)

/-- Witness for C3 at `market1_price=0.6, market2_inverse_price=0.5,
shares=1` (sum 1.1 ≥ 1): no opportunity. -/
theorem check_arbitrage_no_opportunity_witness :
    ((0:ℚ) ≤ 6/10 ∧ (6:ℚ)/10 ≤ 1 ∧ (0:ℚ) ≤ 5/10 ∧ (5:ℚ)/10 ≤ 1 ∧ (0:ℚ) < 1 ∧
      (1:ℚ) ≤ 6/10 + 5/10) ∧
    (check_arbitrage (6/10) (5/10) 1).is_arbitrage = false :=
  ⟨⟨by norm_num, by norm_num, by norm_num, by norm_num, by norm_num, by norm_num⟩,
    check_arbitrage_no_opportunity (6/10) (5/10) 1 (by norm_num) (by norm_num) (by norm_num)
      (by norm_num) (by norm_num) (by norm_num)⟩

/-- C4: on the price interval `[0, 1]` with non-negative shares,
`calculate_kalshi_fees` returns an exact multiple of one cent that is at
least `fee_rate * shares * price * (1 - price)` (never rounded down) and
less than one cent above it (the least such multiple, so never
round-to-nearest); and at `fee_rate=0.07, shares=100, price=0.5` the fee is
exactly 1.75. -/
theorem calculate_kalshi_fees_rounds_up (contract_price shares : ℚ)
    (hp0 : 0 ≤ contract_price) (hp1 : contract_price ≤ 1) (hs : 0 ≤ shares) :
    (∃ n : ℤ, calculate_kalshi_fees contract_price shares = (n : ℚ) / 100) ∧
    7 / 100 * shares * contract_price * (1 - contract_price) ≤
      calculate_kalshi_fees contract_price shares ∧
    calculate_kalshi_fees contract_price shares <
      7 / 100 * shares * contract_price * (1 - contract_price) + 1 / 100 ∧
    calculate_kalshi_fees (1 / 2) 100 = 7 / 4 := by
  have hprod : 0 ≤ 7 / 100 * shares * contract_price * (1 - contract_price) := by
    have h1 : (0:ℚ) ≤ 1 - contract_price := by linarith
    positivity
  simp only [calculate_kalshi_fees, roundUpCent, if_pos hprod]
  refine ⟨⟨_, rfl⟩, ?_, ?_, ?_⟩
  · have := Int.le_ceil ((7 / 100 * shares * contract_price * (1 - contract_price)) * 100)
    linarith
  · have := Int.ceil_lt_add_one ((7 / 100 * shares * contract_price * (1 - contract_price)) * 100)
    linarith
  · norm_num

/-- Witness for C4 at `contract_price=0.47, shares=100`: the raw fee is
1.7437 and the returned fee is a cent multiple in `[1.7437, 1.7537)`
(namely 1.75, rounded up, not to nearest). -/
theorem calculate_kalshi_fees_rounds_up_witness :
    ((0:ℚ) ≤ 47/100 ∧ (47:ℚ)/100 ≤ 1 ∧ (0:ℚ) ≤ 100) ∧
    ((∃ n : ℤ, calculate_kalshi_fees (47/100) 100 = (n : ℚ) / 100) ∧
    7 / 100 * 100 * (47/100) * (1 - 47/100) ≤ calculate_kalshi_fees (47/100) 100 ∧
    calculate_kalshi_fees (47/100) 100 <
      7 / 100 * 100 * (47/100) * (1 - 47/100) + 1 / 100 ∧
    calculate_kalshi_fees (1 / 2) 100 = 7 / 4) :=
  ⟨⟨by norm_num, by norm_num, by norm_num⟩,
    calculate_kalshi_fees_rounds_up (47/100) 100 (by norm_num) (by norm_num) (by norm_num)⟩

/-- C5 (code bug): the claim says a non-positive delta at an absent price is
a no-op on the side ledger, but when the absent price lies above every
stored level the binary search returns the list length and the code appends
`(price, delta)` unconditionally (src/kalshi_api.py, lines 189-191), here
storing the level `(20, -3)` with negative quantity instead of leaving the
ledger `[(10, 5)]` unchanged. -/
theorem delta_nonpositive_absent_price_appended :
    Kalshi.update_orderbook_from_delta [("T", ⟨"T", [(10, 5)], []⟩)]
        ⟨"T", Kalshi.Side.yes, 20, -3⟩ =
      Except.ok [("T", ⟨"T", [(10, 5), (20, -3)], []⟩)] := by
  simp [Kalshi.update_orderbook_from_delta, dictGet, dictSet, Kalshi.Book.side,
    Kalshi.Book.setSide, kalshi_find_index_singleton_above]

/-- C6 (code bug): the side-ledger invariant "no zero/negative-quantity
entries" fails on both replicas.  Kalshi: after a sorted snapshot
`yes = [(10, 5)]`, a delta of 0 at the absent price 20 is appended, leaving
the zero-quantity entry `(20, 0)` in the ledger.  Polymarket: a quantity
update of `"0"` at the existing price 0.5 is stored (the removal test
`size == 0` compares the JSON string against the int 0, which is always
false in Python), leaving a zero-quantity level instead of removing it. -/
theorem ledger_stores_nonpositive_quantities :
    Kalshi.update_orderbook_from_delta
        (Kalshi.update_orderbook_from_snapshot [] ⟨"T", [(10, 5)], []⟩)
        ⟨"T", Kalshi.Side.yes, 20, 0⟩ =
      Except.ok [("T", ⟨"T", [(10, 5), (20, 0)], []⟩)] ∧
    Polymarket.update_orderbook_levels
        [("a", ⟨[], [⟨1/2, "10"⟩], "0", 0, 0, "Dodgers"⟩)] "a" (1/2) "SELL" "0" =
      Except.ok [("a", ⟨[], [⟨1/2, "0"⟩], "0", 0, 0, "Dodgers"⟩)] := by
  constructor
  · simp [Kalshi.update_orderbook_from_delta, Kalshi.update_orderbook_from_snapshot,
      dictGet, dictSet, Kalshi.Book.side, Kalshi.Book.setSide, kalshi_find_index_singleton_above]
  · have hfi : Polymarket.find_index [{ price := (1:ℚ) / 2, size := "10" }] ((1:ℚ) / 2) = 0 := by
      unfold Polymarket.find_index Polymarket.findIndexGo
      norm_num
    simp only [Polymarket.update_orderbook_levels, dictGet, dictSet, Polymarket.Book.side,
      Polymarket.Book.setSide, Polymarket.pyEqStrInt]
    norm_num +decide [hfi]

/-- C7 counterexample: a delta for the ticker `"T"` arriving on an empty
orderbook (no snapshot yet) raises `KeyError` rather than being a silent
no-op, and the handler loop stops at that message: the following snapshot
for `"T"` is left unprocessed instead of being applied, contradicting the
claim that no exception is raised and the message loop is not terminated. -/
theorem delta_before_snapshot_raises :
    Kalshi.update_orderbook_from_delta [] ⟨"T", Kalshi.Side.yes, 10, 5⟩ =
      Except.error PyErr.keyError ∧
    Kalshi.handlerLoop [] [Kalshi.Msg.delta ⟨"T", Kalshi.Side.yes, 10, 5⟩,
        Kalshi.Msg.snapshot ⟨"T", [(10, 5)], []⟩] =
      ([], [Kalshi.Msg.snapshot ⟨"T", [(10, 5)], []⟩]) :=
  ⟨rfl, rfl⟩

/-- C7 amended: a delta referencing an instrument with no snapshot yet
raises `KeyError` from the orderbook lookup (the book stays absent and the
orderbook is unchanged, since the exception fires before any mutation), and
the handler's catch-all terminates the message loop, leaving all subsequent
messages of the stream unprocessed. -/
theorem delta_before_snapshot_keyerror (ob : Kalshi.Orderbook) (m : Kalshi.DeltaMsg)
    (msgs : List Kalshi.Msg) (h : dictGet ob m.market_ticker = none) :
    Kalshi.update_orderbook_from_delta ob m = Except.error PyErr.keyError ∧
    Kalshi.handlerLoop ob (Kalshi.Msg.delta m :: msgs) = (ob, msgs) := by
  constructor
  · simp [Kalshi.update_orderbook_from_delta, h]
  · simp [Kalshi.handlerLoop, Kalshi.on_message, Kalshi.update_orderbook_from_delta, h]

/-- Witness for the amended C7 at the empty orderbook with a concrete delta
followed by one more message. -/
theorem delta_before_snapshot_keyerror_witness :
    dictGet ([] : Kalshi.Orderbook) "K" = none ∧
    (Kalshi.update_orderbook_from_delta [] ⟨"K", Kalshi.Side.no, 30, 2⟩ =
        Except.error PyErr.keyError ∧
      Kalshi.handlerLoop [] [Kalshi.Msg.delta ⟨"K", Kalshi.Side.no, 30, 2⟩,
          Kalshi.Msg.snapshot ⟨"K", [], []⟩] =
        ([], [Kalshi.Msg.snapshot ⟨"K", [], []⟩])) :=
  ⟨rfl, delta_before_snapshot_keyerror [] ⟨"K", Kalshi.Side.no, 30, 2⟩
    [Kalshi.Msg.snapshot ⟨"K", [], []⟩] rfl⟩

/-- C8: when the four raw best-ask price levels are unchanged from the last
accepted evaluation (`prev_price_levels` holds exactly those four prices),
the consumer loop does not re-trigger a trade and leaves the cumulative
`total_profit` and `total_cost` counters unchanged: either the evaluation is
an opportunity and the deduplication guard skips it, or it is not an
opportunity and no accounting happens. -/
theorem message_consumer_dedup (st : ConsumerState) (p1 p2 k1 k2 : OfferData)
    (h : st.prev_price_levels = [p1.price, p2.price, k1.price, k2.price]) :
    (message_consumer_step st p1 p2 k1 k2).2 = false ∧
    (message_consumer_step st p1 p2 k1 k2).1.total_profit = st.total_profit ∧
    (message_consumer_step st p1 p2 k1 k2).1.total_cost = st.total_cost := by
  have hne : st.prev_price_levels ≠ [] := by
    rw [h]
    simp
  have hcur : [p1.price, p2.price, k1.price, k2.price] = st.prev_price_levels := h.symm
  simp only [message_consumer_step]
  by_cases harb :
      (check_markets_arbitrage p1.price p2.price (k1.price / 100) (k2.price / 100) 1).is_arbitrage = true
  · rw [if_pos harb, if_pos ⟨hne, hcur⟩]
    simp
  · rw [if_neg harb]
    simp

/-- Witness for C8: a state whose `prev_price_levels` equals the four
current best-ask prices; the step trades nothing and both counters are
unchanged. -/
theorem message_consumer_dedup_witness :
    (ConsumerState.mk [2/5, 9/10, 60, 50] 3 7 true).prev_price_levels =
      [(OfferData.mk (2/5) 5 (some "t1")).price, (OfferData.mk (9/10) 5 (some "t2")).price,
        (OfferData.mk 60 4 none).price, (OfferData.mk 50 4 none).price] ∧
    ((message_consumer_step (ConsumerState.mk [2/5, 9/10, 60, 50] 3 7 true)
        (OfferData.mk (2/5) 5 (some "t1")) (OfferData.mk (9/10) 5 (some "t2"))
        (OfferData.mk 60 4 none) (OfferData.mk 50 4 none)).2 = false ∧
      (message_consumer_step (ConsumerState.mk [2/5, 9/10, 60, 50] 3 7 true)
        (OfferData.mk (2/5) 5 (some "t1")) (OfferData.mk (9/10) 5 (some "t2"))
        (OfferData.mk 60 4 none) (OfferData.mk 50 4 none)).1.total_profit =
        (ConsumerState.mk [2/5, 9/10, 60, 50] 3 7 true).total_profit ∧
      (message_consumer_step (ConsumerState.mk [2/5, 9/10, 60, 50] 3 7 true)
        (OfferData.mk (2/5) 5 (some "t1")) (OfferData.mk (9/10) 5 (some "t2"))
        (OfferData.mk 60 4 none) (OfferData.mk 50 4 none)).1.total_cost =
        (ConsumerState.mk [2/5, 9/10, 60, 50] 3 7 true).total_cost) :=
  ⟨rfl, message_consumer_dedup (ConsumerState.mk [2/5, 9/10, 60, 50] 3 7 true)
    (OfferData.mk (2/5) 5 (some "t1")) (OfferData.mk (9/10) 5 (some "t2"))
    (OfferData.mk 60 4 none) (OfferData.mk 50 4 none) rfl⟩

/-- C9: installing the same snapshot twice in a row yields the same
order-book state as installing it once, on both replicas.  Kalshi stores
the snapshot message verbatim under its ticker, so a repeated store is
absorbed; Polymarket overwrites the books fields with values computed from
the message alone, so a second application reproduces the same book. -/
theorem snapshot_idempotent (kob : Kalshi.Orderbook) (km : Kalshi.Book)
    (pob pob₂ : Polymarket.Orderbook) (pm : Polymarket.BookMsg)
    (h : Polymarket.update_orderbook pob pm = Except.ok pob₂) :
    Kalshi.update_orderbook_from_snapshot (Kalshi.update_orderbook_from_snapshot kob km) km =
      Kalshi.update_orderbook_from_snapshot kob km ∧
    Polymarket.update_orderbook pob₂ pm = Except.ok pob₂ := by
  constructor
  · simp [Kalshi.update_orderbook_from_snapshot, dictSet_dictSet_self]
  · unfold Polymarket.update_orderbook at h ⊢
    cases hget : dictGet pob pm.asset_id with
    | none =>
      rw [hget] at h
      cases h
    | some book =>
      rw [hget] at h
      cases hask : pm.asks.getLast? with
      | none =>
        rw [hask] at h
        cases h
      | some bestAsk =>
        cases hbid : pm.bids.getLast? with
        | none =>
          rw [hask, hbid] at h
          cases h
        | some bestBid =>
          rw [hask, hbid] at h
          injection h with h
          subst h
          rw [dictGet_dictSet_self]
          simp [dictSet_dictSet_self]

/-- Witness for C9 at a concrete one-asset Polymarket orderbook and a
snapshot with one bid and one ask (plus any Kalshi book). -/
theorem snapshot_idempotent_witness :
    Polymarket.update_orderbook [("a", ⟨[], [], "0", 0, 0, "Dodgers"⟩)]
        ⟨"a", [⟨1, "3"⟩], [⟨3, "4"⟩], "5"⟩ =
      Except.ok [("a", ⟨[⟨1, "3"⟩], [⟨3, "4"⟩], "5", 2, 2, "Dodgers"⟩)] ∧
    (Kalshi.update_orderbook_from_snapshot
        (Kalshi.update_orderbook_from_snapshot [] ⟨"K", [(10, 5)], []⟩) ⟨"K", [(10, 5)], []⟩ =
      Kalshi.update_orderbook_from_snapshot [] ⟨"K", [(10, 5)], []⟩ ∧
    Polymarket.update_orderbook [("a", ⟨[⟨1, "3"⟩], [⟨3, "4"⟩], "5", 2, 2, "Dodgers"⟩)]
        ⟨"a", [⟨1, "3"⟩], [⟨3, "4"⟩], "5"⟩ =
      Except.ok [("a", ⟨[⟨1, "3"⟩], [⟨3, "4"⟩], "5", 2, 2, "Dodgers"⟩)]) :=
  have h : Polymarket.update_orderbook [("a", ⟨[], [], "0", 0, 0, "Dodgers"⟩)]
      ⟨"a", [⟨1, "3"⟩], [⟨3, "4"⟩], "5"⟩ =
      Except.ok [("a", ⟨[⟨1, "3"⟩], [⟨3, "4"⟩], "5", 2, 2, "Dodgers"⟩)] := by
    simp [Polymarket.update_orderbook, dictGet, dictSet]
    norm_num
  ⟨h, snapshot_idempotent [] ⟨"K", [(10, 5)], []⟩ _ _ _ h⟩

/-- C10: the two PnL fields returned by `check_arbitrage` are equal for all
inputs — both equal `shares * (1 - market1_price - market2_inverse_price)`
minus the Kalshi fee on the hedge leg — so the computed profit is
resolution-independent unconditionally. -/
theorem check_arbitrage_resolution_independent (market1_price market2_inverse_price shares : ℚ) :
    (check_arbitrage market1_price market2_inverse_price shares).pnl_if_win =
      (check_arbitrage market1_price market2_inverse_price shares).pnl_if_lose ∧
    (check_arbitrage market1_price market2_inverse_price shares).pnl_if_win =
      shares * (1 - market1_price - market2_inverse_price) -
        calculate_kalshi_fees market2_inverse_price shares := by
  constructor
  · simp only [check_arbitrage]
    ring
  · simp only [check_arbitrage]
    ring

end PolyKalshiArb
